import Mathlib

/-!
Shallow embedding of the FooSpeedy DSP adapter (src/src/dsp_speedy.cpp).

Audio samples and configuration multipliers are modelled as exact rationals
(the C code computes in 32-bit floats; all the control flow under study —
clamping, default tests, serialization copies — is arithmetic-exact).
The external Sonic/Speedy engine is opaque to the adapter, so it is
modelled by an oracle supplying creation success, write success, and the
number and values of samples each read call offers; the read operation
honours its max-count argument, as the engine interface specifies.
-/

namespace FooSpeedy

/-- The component GUID `g_dsp_speedy_guid`, modelled as a natural number. -/
def g_dsp_speedy_guid : Nat := 0x8e4a9f2c

def kDefaultSpeed : ℚ := 1

def kDefaultPitch : ℚ := 1

def kDefaultRate : ℚ := 1

def kDefaultVolume : ℚ := 1

def kDefaultNonlinear : Bool := false

def kDefaultNonlinearFactor : ℚ := 1

/-- `dsp_speedy_config`: the tunable Parameter Record. -/
structure dsp_speedy_config where
  speed : ℚ
  pitch : ℚ
  rate : ℚ
  volume : ℚ
  nonlinear_enabled : Bool
  nonlinear_factor : ℚ
deriving DecidableEq, Repr

/-- The default constructor `dsp_speedy_config()`. -/
def dsp_speedy_config.init : dsp_speedy_config :=
  { speed := kDefaultSpeed
    pitch := kDefaultPitch
    rate := kDefaultRate
    volume := kDefaultVolume
    nonlinear_enabled := kDefaultNonlinear
    nonlinear_factor := kDefaultNonlinearFactor }

/-- `dsp_speedy_config::is_default`: compares speed, pitch, rate, volume and
the nonlinear flag to the defaults; `nonlinear_factor` is not inspected. -/
def dsp_speedy_config.is_default (c : dsp_speedy_config) : Bool :=
  c.speed == kDefaultSpeed &&
  c.pitch == kDefaultPitch &&
  c.rate == kDefaultRate &&
  c.volume == kDefaultVolume &&
  c.nonlinear_enabled == kDefaultNonlinear

/-- `dsp_speedy_config::reset`: `*this = dsp_speedy_config()`. -/
def dsp_speedy_config.reset (_ : dsp_speedy_config) : dsp_speedy_config :=
  dsp_speedy_config.init

/-- A `dsp_preset` blob as the adapter reads it: its owner GUID, its raw
byte size, the five 32-bit float slots at offsets 0,4,8,12,16 and the
boolean byte at offset 20.  (Floats are carried exactly; serialization and
deserialization both memcpy the same bit patterns.) -/
structure dsp_preset where
  owner : Nat
  data_size : Nat
  f0 : ℚ
  f1 : ℚ
  f2 : ℚ
  f3 : ℚ
  f4 : ℚ
  bbyte : Bool
deriving DecidableEq, Repr

/-- `sizeof(float) * 5 + sizeof(bool)` = 21 bytes. -/
def preset_payload_size : Nat := 4 * 5 + 1

/-- `parse_preset`: owner check, then size check, then field-for-field copy;
any failure resets the config to defaults. -/
def parse_preset (preset : dsp_preset) : dsp_speedy_config :=
  if preset.owner ≠ g_dsp_speedy_guid then
    dsp_speedy_config.init
  else if preset_payload_size ≤ preset.data_size then
    { speed := preset.f0
      pitch := preset.f1
      rate := preset.f2
      volume := preset.f3
      nonlinear_factor := preset.f4
      nonlinear_enabled := preset.bbyte }
  else
    dsp_speedy_config.init

/-- `make_preset`: owner GUID plus the fixed 21-byte payload of five floats
and one bool byte. -/
def make_preset (config : dsp_speedy_config) : dsp_preset :=
  { owner := g_dsp_speedy_guid
    data_size := preset_payload_size
    f0 := config.speed
    f1 := config.pitch
    f2 := config.rate
    f3 := config.volume
    f4 := config.nonlinear_factor
    bbyte := config.nonlinear_enabled }

/-- Truncation toward zero, the semantics of C's `static_cast<short>` on a
float value that fits in the target range. -/
def ratTrunc (q : ℚ) : Int :=
  if 0 ≤ q then ⌊q⌋ else -⌊-q⌋

/-- The per-sample float→short conversion of `on_chunk` (lines 142–145):
multiply by 32767.0, clamp above to 32767.0, clamp below to -32768.0,
truncate to a 16-bit signed integer. -/
def to_fixed (x : ℚ) : Int :=
  let s0 : ℚ := x * 32767
  let s1 : ℚ := if s0 > 32767 then 32767 else s0
  let s2 : ℚ := if s1 < -32768 then -32768 else s1
  ratTrunc s2

/-- The per-sample short→float conversion of `on_chunk` (line 170):
divide by 32767.0. -/
def to_float (v : Int) : ℚ :=
  (v : ℚ) / 32767

/-- The host's audio buffer: interleaved samples plus metadata, as read by
`get_data`, `get_sample_count`, `get_srate`, `get_channels`,
`get_channel_config` and replaced by `set_data`. -/
structure audio_chunk where
  data : List ℚ
  sample_count : Nat
  srate : Nat
  channels : Nat
  channel_config : Nat
deriving DecidableEq, Repr

/-- The observable configuration of one live Sonic engine instance: the
(rate, channels) it was created for and the parameters applied to it.
`nonlinear = some f` means nonlinear speedup was enabled with factor `f`. -/
structure sonicStream where
  srate : Nat
  channels : Nat
  speed : ℚ
  pitch : ℚ
  rate : ℚ
  volume : ℚ
  nonlinear : Option ℚ
deriving DecidableEq, Repr

/-- Oracle for the opaque engine's behaviour: whether creation succeeds for
a given (rate, channels), whether a write is accepted, how many samples the
engine offers on its k-th read call, and the output sample values (by
absolute interleaved index).  A read call with capacity `req` returns
`min (avail k) req` frames, as the engine's read contract caps output at
the caller-supplied maximum. -/
structure EngineOracle where
  createOk : Nat → Nat → Bool
  writeOk : Bool
  avail : Nat → Nat
  outSample : Nat → Int

/-- `sonicCreateStream`: a fresh stream for (rate, channels) with engine
default parameters, or failure. -/
def sonicCreateStream (o : EngineOracle) (sample_rate channels : Nat) : Option sonicStream :=
  if o.createOk sample_rate channels then
    some { srate := sample_rate, channels := channels,
           speed := 1, pitch := 1, rate := 1, volume := 1, nonlinear := none }
  else
    none

def sonicSetSpeed (s : sonicStream) (v : ℚ) : sonicStream :=
  { s with speed := v }

def sonicIntSetPitch (s : sonicStream) (v : ℚ) : sonicStream :=
  { s with pitch := v }

def sonicSetRate (s : sonicStream) (v : ℚ) : sonicStream :=
  { s with rate := v }

def sonicIntSetVolume (s : sonicStream) (v : ℚ) : sonicStream :=
  { s with volume := v }

def sonicEnableNonlinearSpeedup (s : sonicStream) (f : ℚ) : sonicStream :=
  { s with nonlinear := some f }

/-- The adapter's per-instance state: configuration, the (possibly null)
engine stream, and the bound format triple. -/
structure dsp_speedy where
  m_config : dsp_speedy_config
  m_stream : Option sonicStream
  m_sample_rate : Nat
  m_channels : Nat
  m_channel_config : Nat
deriving DecidableEq, Repr

/-- `dsp_speedy::init_stream`: create the stream; on failure report false
(stream stays null).  On success apply speed, pitch, rate, volume, and —
only when `nonlinear_enabled` — enable nonlinear speedup with
`nonlinear_factor`. -/
def init_stream (o : EngineOracle) (config : dsp_speedy_config)
    (sample_rate channels : Nat) : Option sonicStream :=
  match sonicCreateStream o sample_rate channels with
  | none => none
  | some s =>
    let s := sonicSetSpeed s config.speed
    let s := sonicIntSetPitch s config.pitch
    let s := sonicSetRate s config.rate
    let s := sonicIntSetVolume s config.volume
    let s :=
      if config.nonlinear_enabled then
        sonicEnableNonlinearSpeedup s config.nonlinear_factor
      else s
    some s

/-- The drain loop of `on_chunk` (lines 157–164): repeatedly read, asking
for the remaining capacity `maxSamples - total`; stop when a read returns
zero or `total` reaches `maxSamples`.  Returns the final `total_read`. -/
def drainGo (avail : Nat → Nat) (maxSamples k total : Nat) : Nat :=
  if _h1 : min (avail k) (maxSamples - total) = 0 then
    total
  else if _h2 : maxSamples ≤ total + min (avail k) (maxSamples - total) then
    total + min (avail k) (maxSamples - total)
  else
    drainGo avail maxSamples (k + 1) (total + min (avail k) (maxSamples - total))
termination_by maxSamples - total
decreasing_by omega

/-- The drain loop started at `total_read = 0`. -/
def drainTotal (avail : Nat → Nat) (maxSamples : Nat) : Nat :=
  drainGo avail maxSamples 0 0

/-- `sonicWriteShortToStream` as the adapter observes it: accepted or not. -/
def sonicWriteShortToStream (o : EngineOracle) (_s : sonicStream)
    (_samples : List Int) (_count : Nat) : Bool :=
  o.writeOk

/-- The tail of `on_chunk` after format handling (lines 132–180): null
stream passes through; convert input to shorts; write (pass through on
rejection); drain with cap `sample_count * 4`; emit the drained samples
converted back to float, or silence of the original sample count when
nothing was drained.  The adapter state is returned unchanged. -/
def run_stream (o : EngineOracle) (st : dsp_speedy) (chunk : audio_chunk) :
    dsp_speedy × audio_chunk :=
  match st.m_stream with
  | none => (st, chunk)
  | some s =>
    let sample_count := chunk.sample_count
    let channels := chunk.channels
    let fixed_input :=
      (List.range (sample_count * channels)).map (fun i => to_fixed (chunk.data.getD i 0))
    if ¬ (sonicWriteShortToStream o s fixed_input sample_count = true) then
      (st, chunk)
    else
      let maxSamples := sample_count * 4
      let total := drainTotal o.avail maxSamples
      if 0 < total then
        (st, { data := (List.range (total * channels)).map (fun i => to_float (o.outSample i))
               sample_count := total
               srate := chunk.srate
               channels := channels
               channel_config := chunk.channel_config })
      else
        (st, { data := List.replicate (sample_count * channels) 0
               sample_count := sample_count
               srate := chunk.srate
               channels := channels
               channel_config := chunk.channel_config })

/-- `dsp_speedy::on_chunk`: default config passes through untouched;
a format change destroys the old stream and attempts `init_stream`,
passing through (with the old bound triple retained) on failure and
recording the new triple on success; then `run_stream`. -/
def on_chunk (o : EngineOracle) (st : dsp_speedy) (chunk : audio_chunk) :
    dsp_speedy × audio_chunk :=
  if st.m_config.is_default then
    (st, chunk)
  else if chunk.srate ≠ st.m_sample_rate ∨ chunk.channels ≠ st.m_channels ∨
      chunk.channel_config ≠ st.m_channel_config then
    match init_stream o st.m_config chunk.srate chunk.channels with
    | none => ({ st with m_stream := none }, chunk)
    | some s =>
      run_stream o
        { st with m_stream := some s, m_sample_rate := chunk.srate,
                  m_channels := chunk.channels, m_channel_config := chunk.channel_config }
        chunk
  else
    run_stream o st chunk

/-! Concrete sample inputs used to instantiate the theorems below. -/

/-- An engine that always creates, accepts writes, and offers no output. -/
def oracle0 : EngineOracle :=
  { createOk := fun _ _ => true
    writeOk := true
    avail := fun _ => 0
    outSample := fun _ => 0 }

/-- An engine whose creation always fails. -/
def oracleFail : EngineOracle :=
  { createOk := fun _ _ => false
    writeOk := true
    avail := fun _ => 0
    outSample := fun _ => 0 }

/-- A two-frame stereo chunk at 44100 Hz. -/
def chunk0 : audio_chunk :=
  { data := [1/2, -1/2, 1/4, -1/4]
    sample_count := 2
    srate := 44100
    channels := 2
    channel_config := 3 }

/-- A two-frame stereo chunk at 48000 Hz. -/
def chunk48 : audio_chunk :=
  { data := [1/2, -1/2, 1/4, -1/4]
    sample_count := 2
    srate := 48000
    channels := 2
    channel_config := 3 }

/-- A freshly constructed adapter with the default configuration. -/
def state0 : dsp_speedy :=
  { m_config := dsp_speedy_config.init
    m_stream := none
    m_sample_rate := 0
    m_channels := 0
    m_channel_config := 0 }

/-- A non-default configuration: double speed. -/
def config2 : dsp_speedy_config :=
  { dsp_speedy_config.init with speed := 2 }

/-- A live stream bound to (44100, 2) with double speed applied. -/
def stream0 : sonicStream :=
  { srate := 44100, channels := 2, speed := 2, pitch := 1, rate := 1, volume := 1,
    nonlinear := none }

/-- An adapter mid-stream: non-default config, bound to (44100, 2, 3). -/
def state2 : dsp_speedy :=
  { m_config := config2
    m_stream := some stream0
    m_sample_rate := 44100
    m_channels := 2
    m_channel_config := 3 }

/-- A preset blob tagged with a foreign owner GUID. -/
def foreignPreset : dsp_preset :=
  { owner := 7, data_size := preset_payload_size,
    f0 := 2, f1 := 2, f2 := 2, f3 := 2, f4 := 2, bbyte := true }

/-- A correctly-owned preset blob one byte short of the fixed size. -/
def shortPreset : dsp_preset :=
  { owner := g_dsp_speedy_guid, data_size := 20,
    f0 := 2, f1 := 2, f2 := 2, f3 := 2, f4 := 2, bbyte := true }

/-- A well-formed preset blob storing a negative speed. -/
def badPreset : dsp_preset :=
  { owner := g_dsp_speedy_guid, data_size := preset_payload_size,
    f0 := -1, f1 := 1, f2 := 1, f3 := 1, f4 := 1, bbyte := false }

/-- A well-formed preset blob with strictly positive fields. -/
def goodPreset : dsp_preset :=
  { owner := g_dsp_speedy_guid, data_size := preset_payload_size,
    f0 := 2, f1 := 3, f2 := 4, f3 := 5, f4 := 6, bbyte := true }

/-! Helper lemmas shared by the claim theorems. -/

/-- The drain loop never accumulates past its cap. -/
theorem drainGo_le (avail : Nat → Nat) (maxSamples k total : Nat)
    (h : total ≤ maxSamples) :
    drainGo avail maxSamples k total ≤ maxSamples := by
  rw [drainGo]
  split
  next => exact h
  next h1 =>
    split
    next h2 => omega
    next h2 => exact drainGo_le avail maxSamples (k + 1) _ (by omega)
termination_by maxSamples - total
decreasing_by omega

/-- Started at zero, the drain loop stays within the cap. -/
theorem drainTotal_le (avail : Nat → Nat) (maxSamples : Nat) :
    drainTotal avail maxSamples ≤ maxSamples :=
  drainGo_le avail maxSamples 0 0 (Nat.zero_le _)

/-- `run_stream` never changes the adapter state. -/
theorem run_stream_fst (o : EngineOracle) (st : dsp_speedy) (chunk : audio_chunk) :
    (run_stream o st chunk).1 = st := by
  unfold run_stream
  cases st.m_stream with
  | none => rfl
  | some s =>
    dsimp only
    split
    · rfl
    · split <;> rfl

/-- The emitted sample count out of `run_stream` is at most 4× the input. -/
theorem run_stream_count (o : EngineOracle) (st : dsp_speedy) (chunk : audio_chunk) :
    (run_stream o st chunk).2.sample_count ≤ 4 * chunk.sample_count := by
  unfold run_stream
  cases st.m_stream with
  | none => dsimp only; omega
  | some s =>
    dsimp only
    split
    · dsimp only
      omega
    · split
      next h =>
        dsimp only
        have := drainTotal_le o.avail (chunk.sample_count * 4)
        omega
      next h => dsimp only; omega

/-! Claim theorems. -/

/-- C5: deserializing the blob produced by serializing any Parameter Record
(owner GUID matching) reconstructs the record field-for-field. -/
theorem parse_make_roundtrip (config : dsp_speedy_config) :
    parse_preset (make_preset config) = config := by
  simp [parse_preset, make_preset, preset_payload_size, g_dsp_speedy_guid]

/-- C6: a blob with a foreign owner GUID, or one smaller than the fixed
21-byte payload, deserializes to the default Parameter Record (the parse
function is total, so no fault is ever raised). -/
theorem parse_preset_defaults_on_invalid (preset : dsp_preset) :
    (preset.owner ≠ g_dsp_speedy_guid → parse_preset preset = dsp_speedy_config.init) ∧
    (preset.data_size < preset_payload_size → parse_preset preset = dsp_speedy_config.init) := by
  constructor
  · intro h
    simp [parse_preset, h]
  · intro h
    unfold parse_preset
    split
    · rfl
    · rw [if_neg (by omega)]

/-- C6 witness: a foreign-owner blob and a 20-byte blob both yield the
default record. -/
theorem parse_preset_defaults_on_invalid_witness :
    parse_preset foreignPreset = dsp_speedy_config.init ∧
    parse_preset shortPreset = dsp_speedy_config.init :=
  ⟨(parse_preset_defaults_on_invalid foreignPreset).1 (by decide),
   (parse_preset_defaults_on_invalid shortPreset).2 (by decide)⟩

/-- C8: `is_default` holds iff speed, pitch, rate and volume are 1 and
`nonlinear_enabled` is false; `nonlinear_factor` is not consulted, so a
record differing from the defaults only there is still default. -/
theorem is_default_spec (c : dsp_speedy_config) :
    (c.is_default = true ↔
      c.speed = 1 ∧ c.pitch = 1 ∧ c.rate = 1 ∧ c.volume = 1 ∧
      c.nonlinear_enabled = false) ∧
    ∀ q : ℚ, ({ dsp_speedy_config.init with nonlinear_factor := q }).is_default = true := by
  constructor
  · simp [dsp_speedy_config.is_default, kDefaultSpeed, kDefaultPitch, kDefaultRate,
      kDefaultVolume, kDefaultNonlinear, and_assoc]
  · intro q
    simp [dsp_speedy_config.is_default, dsp_speedy_config.init, kDefaultSpeed,
      kDefaultPitch, kDefaultRate, kDefaultVolume, kDefaultNonlinear]

/-- C9 counterexample: a blob that passes both validation checks (matching
owner, full size) but stores speed = -1 deserializes to a record whose
speed is not strictly positive, so deserialization does not maintain the
positivity invariant. -/
theorem parse_preset_positivity_counterexample :
    badPreset.owner = g_dsp_speedy_guid ∧
    preset_payload_size ≤ badPreset.data_size ∧
    (parse_preset badPreset).speed = -1 ∧
    ¬ (0 < (parse_preset badPreset).speed) := by
  refine ⟨rfl, le_refl _, ?_, ?_⟩
  · simp [parse_preset, badPreset]
  · simp [parse_preset, badPreset]

/-- C9 amended: construction and reset produce strictly positive multiplier
fields, and deserialization of a size- and owner-valid blob copies the
blob's five float slots verbatim without any positivity validation, so its
output fields are strictly positive exactly when the stored values are. -/
theorem config_positivity (p : dsp_preset) :
    (0 < dsp_speedy_config.init.speed ∧ 0 < dsp_speedy_config.init.pitch ∧
     0 < dsp_speedy_config.init.rate ∧ 0 < dsp_speedy_config.init.volume ∧
     0 < dsp_speedy_config.init.nonlinear_factor) ∧
    (∀ c : dsp_speedy_config, 0 < c.reset.speed ∧ 0 < c.reset.pitch ∧
     0 < c.reset.rate ∧ 0 < c.reset.volume ∧ 0 < c.reset.nonlinear_factor) ∧
    (p.owner = g_dsp_speedy_guid → preset_payload_size ≤ p.data_size →
     parse_preset p =
       { speed := p.f0, pitch := p.f1, rate := p.f2, volume := p.f3,
         nonlinear_factor := p.f4, nonlinear_enabled := p.bbyte } ∧
     (0 < p.f0 → 0 < p.f1 → 0 < p.f2 → 0 < p.f3 → 0 < p.f4 →
      0 < (parse_preset p).speed ∧ 0 < (parse_preset p).pitch ∧
      0 < (parse_preset p).rate ∧ 0 < (parse_preset p).volume ∧
      0 < (parse_preset p).nonlinear_factor)) := by
  refine ⟨?_, ?_, ?_⟩
  · norm_num [dsp_speedy_config.init, kDefaultSpeed, kDefaultPitch, kDefaultRate,
      kDefaultVolume, kDefaultNonlinearFactor]
  · intro c
    norm_num [dsp_speedy_config.reset, dsp_speedy_config.init, kDefaultSpeed,
      kDefaultPitch, kDefaultRate, kDefaultVolume, kDefaultNonlinearFactor]
  · intro h1 h2
    have heq : parse_preset p =
        { speed := p.f0, pitch := p.f1, rate := p.f2, volume := p.f3,
          nonlinear_factor := p.f4, nonlinear_enabled := p.bbyte } := by
      simp [parse_preset, h1, h2]
    refine ⟨heq, ?_⟩
    intro h3 h4 h5 h6 h7
    rw [heq]
    exact ⟨h3, h4, h5, h6, h7⟩

/-- C9 witness: instantiating the amended claim at a concrete positive
blob gives strictly positive deserialized fields. -/
theorem config_positivity_witness :
    0 < (parse_preset goodPreset).speed ∧ 0 < (parse_preset goodPreset).pitch ∧
    0 < (parse_preset goodPreset).rate ∧ 0 < (parse_preset goodPreset).volume ∧
    0 < (parse_preset goodPreset).nonlinear_factor :=
  ((config_positivity goodPreset).2.2 rfl (le_refl _)).2
    (by norm_num [goodPreset]) (by norm_num [goodPreset]) (by norm_num [goodPreset])
    (by norm_num [goodPreset]) (by norm_num [goodPreset])

/-- C7 counterexample: the sample -65535/65534 lies below -1, yet its
fixed-point conversion is -32767, not the claimed boundary value -32768
(the product -32767.5 escapes the lower clamp and truncates toward zero). -/
theorem to_fixed_below_range_counterexample :
    ((-65535 : ℚ) / 65534 < -1) ∧
    to_fixed ((-65535 : ℚ) / 65534) ≠ -32768 ∧
    to_fixed ((-65535 : ℚ) / 65534) = -32767 := by
  have h : to_fixed ((-65535 : ℚ) / 65534) = -32767 := by
    norm_num [to_fixed, ratTrunc]
  exact ⟨by norm_num, by rw [h]; decide, h⟩

/-- C7 amended: the conversion multiplies by 32767, clamps to
[-32768, 32767] and truncates; samples above 1 saturate to exactly 32767,
samples at or below -32768/32767 saturate to exactly -32768, and samples
strictly between -32768/32767 and -1 truncate to -32767 — so out-of-range
samples map to a boundary value -32768, -32767 or 32767 and never wrap. -/
theorem to_fixed_saturates (x : ℚ) :
    (1 < x → to_fixed x = 32767) ∧
    (x ≤ -32768 / 32767 → to_fixed x = -32768) ∧
    (-32768 / 32767 < x → x < -1 → to_fixed x = -32767) := by
  refine ⟨?_, ?_, ?_⟩
  · intro h
    have h0 : (32767 : ℚ) < x * 32767 := by linarith
    simp only [to_fixed]
    rw [if_pos h0, if_neg (by norm_num)]
    norm_num [ratTrunc]
  · intro h
    have h0 : x * 32767 ≤ -32768 := by linarith
    have hng : ¬ (x * 32767 > 32767) := by linarith
    simp only [to_fixed]
    rw [if_neg hng]
    rcases lt_or_eq_of_le h0 with h1 | h1
    · rw [if_pos h1]
      norm_num [ratTrunc]
    · rw [h1]
      norm_num [ratTrunc]
  · intro h1 h2
    have ha : -32768 < x * 32767 := by linarith
    have hb : x * 32767 < -32767 := by linarith
    have hng : ¬ (x * 32767 > 32767) := by linarith
    have hng2 : ¬ (x * 32767 < -32768) := by linarith
    simp only [to_fixed]
    rw [if_neg hng, if_neg hng2]
    have hneg : ¬ (0 : ℚ) ≤ x * 32767 := by linarith
    simp only [ratTrunc]
    rw [if_neg hneg]
    have hfl : ⌊-(x * 32767)⌋ = 32767 := by
      rw [Int.floor_eq_iff]
      constructor
      · push_cast
        linarith
      · push_cast
        linarith
    rw [hfl]

/-- C7 witness: concrete saturations in each of the three regimes. -/
theorem to_fixed_saturates_witness :
    to_fixed (2 : ℚ) = 32767 ∧ to_fixed (-2 : ℚ) = -32768 ∧
    to_fixed ((-49152 : ℚ) / 49151) = -32767 :=
  ⟨(to_fixed_saturates 2).1 (by norm_num),
   (to_fixed_saturates (-2)).2.1 (by norm_num),
   (to_fixed_saturates ((-49152 : ℚ) / 49151)).2.2 (by norm_num) (by norm_num)⟩

/-- C1: with a default Parameter Record, `on_chunk` succeeds, returns the
buffer bit-identical, and changes no adapter state (in particular no
stream is created). -/
theorem on_chunk_default_passthrough (o : EngineOracle) (st : dsp_speedy)
    (chunk : audio_chunk) (h : st.m_config.is_default = true) :
    on_chunk o st chunk = (st, chunk) := by
  unfold on_chunk
  simp [h]

/-- C1 witness: a default-configured adapter passes a concrete chunk
through untouched under an always-succeeding engine. -/
theorem on_chunk_default_passthrough_witness :
    on_chunk oracle0 state0 chunk0 = (state0, chunk0) :=
  on_chunk_default_passthrough oracle0 state0 chunk0 (by decide)

/-- C2: for every engine behaviour, adapter state and input buffer, the
drain loop total is at most 4× the input sample count, and the emitted
buffer's sample count is at most 4× the input sample count (termination is
inherent in the loop's definition, whose recursion is well-founded on the
remaining capacity). -/
theorem on_chunk_drain_capped (o : EngineOracle) (st : dsp_speedy)
    (chunk : audio_chunk) :
    drainTotal o.avail (chunk.sample_count * 4) ≤ 4 * chunk.sample_count ∧
    (on_chunk o st chunk).2.sample_count ≤ 4 * chunk.sample_count := by
  constructor
  · have := drainTotal_le o.avail (chunk.sample_count * 4)
    omega
  · unfold on_chunk
    split
    · dsimp only
      omega
    · split
      · cases hinit : init_stream o st.m_config chunk.srate chunk.channels with
        | none => dsimp only; omega
        | some s => exact run_stream_count o _ chunk
      · exact run_stream_count o st chunk

/-- C3: with a non-default record, a live stream bound to the buffer's
format, an accepted write and a drain total of zero, the emitted buffer is
exactly the original sample count of zero-valued samples at the original
rate, channel count and channel layout. -/
theorem on_chunk_silence_substitution (o : EngineOracle) (st : dsp_speedy)
    (chunk : audio_chunk) (s : sonicStream)
    (hdef : st.m_config.is_default = false)
    (hr : chunk.srate = st.m_sample_rate)
    (hc : chunk.channels = st.m_channels)
    (hl : chunk.channel_config = st.m_channel_config)
    (hs : st.m_stream = some s)
    (hw : o.writeOk = true)
    (hdrain : drainTotal o.avail (chunk.sample_count * 4) = 0) :
    (on_chunk o st chunk).2 =
      { data := List.replicate (chunk.sample_count * chunk.channels) 0
        sample_count := chunk.sample_count
        srate := chunk.srate
        channels := chunk.channels
        channel_config := chunk.channel_config } := by
  unfold on_chunk
  rw [if_neg (by simp [hdef]), if_neg (by simp [hr, hc, hl])]
  unfold run_stream
  rw [hs]
  simp [sonicWriteShortToStream, hw, hdrain]

/-- C3 witness: a bound double-speed adapter fed a matching two-frame
chunk by an engine that offers no output emits two frames of silence. -/
theorem on_chunk_silence_substitution_witness :
    (on_chunk oracle0 state2 chunk0).2 =
      { data := List.replicate (chunk0.sample_count * chunk0.channels) 0
        sample_count := chunk0.sample_count
        srate := chunk0.srate
        channels := chunk0.channels
        channel_config := chunk0.channel_config } :=
  on_chunk_silence_substitution oracle0 state2 chunk0 stream0 (by decide)
    rfl rfl rfl rfl rfl (by simp [drainTotal, drainGo, oracle0, chunk0])

/-- C4: on a format mismatch with a non-default record, either stream
creation fails — leaving the session unbound and the buffer untouched —
or a fresh stream for the buffer's rate and channels is bound, carrying
exactly the record's speed, pitch, rate and volume, with nonlinear mode
enabled with `nonlinear_factor` precisely when `nonlinear_enabled`; no
partial reconfiguration is possible. -/
theorem on_chunk_format_change (o : EngineOracle) (st : dsp_speedy)
    (chunk : audio_chunk)
    (hdef : st.m_config.is_default = false)
    (hfmt : chunk.srate ≠ st.m_sample_rate ∨ chunk.channels ≠ st.m_channels ∨
      chunk.channel_config ≠ st.m_channel_config) :
    (init_stream o st.m_config chunk.srate chunk.channels = none ∧
      on_chunk o st chunk = ({ st with m_stream := none }, chunk)) ∨
    (∃ s, init_stream o st.m_config chunk.srate chunk.channels = some s ∧
      s.srate = chunk.srate ∧ s.channels = chunk.channels ∧
      s.speed = st.m_config.speed ∧ s.pitch = st.m_config.pitch ∧
      s.rate = st.m_config.rate ∧ s.volume = st.m_config.volume ∧
      s.nonlinear = (if st.m_config.nonlinear_enabled = true then
        some st.m_config.nonlinear_factor else none) ∧
      (on_chunk o st chunk).1 =
        { st with m_stream := some s, m_sample_rate := chunk.srate,
                  m_channels := chunk.channels,
                  m_channel_config := chunk.channel_config }) := by
  cases hc : o.createOk chunk.srate chunk.channels with
  | false =>
    left
    have hinit : init_stream o st.m_config chunk.srate chunk.channels = none := by
      simp [init_stream, sonicCreateStream, hc]
    refine ⟨hinit, ?_⟩
    unfold on_chunk
    rw [if_neg (by simp [hdef]), if_pos hfmt, hinit]
  | true =>
    right
    have hinit : init_stream o st.m_config chunk.srate chunk.channels =
        some { srate := chunk.srate, channels := chunk.channels,
               speed := st.m_config.speed, pitch := st.m_config.pitch,
               rate := st.m_config.rate, volume := st.m_config.volume,
               nonlinear := if st.m_config.nonlinear_enabled = true then
                 some st.m_config.nonlinear_factor else none } := by
      cases hnl : st.m_config.nonlinear_enabled <;>
        simp [init_stream, sonicCreateStream, hc, hnl, sonicSetSpeed,
          sonicIntSetPitch, sonicSetRate, sonicIntSetVolume,
          sonicEnableNonlinearSpeedup]
    refine ⟨_, hinit, rfl, rfl, rfl, rfl, rfl, rfl, rfl, ?_⟩
    unfold on_chunk
    rw [if_neg (by simp [hdef]), if_pos hfmt, hinit]
    exact run_stream_fst o _ chunk

/-- C4 witness: a mismatching 48000 Hz chunk under an always-succeeding
engine lands in the successful-rebind disjunct. -/
theorem on_chunk_format_change_witness :
    (init_stream oracle0 state2.m_config chunk48.srate chunk48.channels = none ∧
      on_chunk oracle0 state2 chunk48 = ({ state2 with m_stream := none }, chunk48)) ∨
    (∃ s, init_stream oracle0 state2.m_config chunk48.srate chunk48.channels = some s ∧
      s.srate = chunk48.srate ∧ s.channels = chunk48.channels ∧
      s.speed = state2.m_config.speed ∧ s.pitch = state2.m_config.pitch ∧
      s.rate = state2.m_config.rate ∧ s.volume = state2.m_config.volume ∧
      s.nonlinear = (if state2.m_config.nonlinear_enabled = true then
        some state2.m_config.nonlinear_factor else none) ∧
      (on_chunk oracle0 state2 chunk48).1 =
        { state2 with m_stream := some s, m_sample_rate := chunk48.srate,
                      m_channels := chunk48.channels,
                      m_channel_config := chunk48.channel_config }) :=
  on_chunk_format_change oracle0 state2 chunk48 (by decide) (by decide)

/-- C10: after a failed engine creation on a format change, the bound
triple keeps its old value and the stream is null, so a later buffer in
the old format passes through unchanged under any engine behaviour — the
format comparison matches while the handle is null, and no creation is
attempted. -/
theorem on_chunk_failed_bind_passthrough (o o2 : EngineOracle)
    (st : dsp_speedy) (chunk chunk2 : audio_chunk)
    (hdef : st.m_config.is_default = false)
    (hfmt : chunk.srate ≠ st.m_sample_rate ∨ chunk.channels ≠ st.m_channels ∨
      chunk.channel_config ≠ st.m_channel_config)
    (hcreate : o.createOk chunk.srate chunk.channels = false)
    (hr2 : chunk2.srate = st.m_sample_rate)
    (hc2 : chunk2.channels = st.m_channels)
    (hl2 : chunk2.channel_config = st.m_channel_config) :
    (on_chunk o st chunk).1.m_sample_rate = st.m_sample_rate ∧
    (on_chunk o st chunk).1.m_channels = st.m_channels ∧
    (on_chunk o st chunk).1.m_channel_config = st.m_channel_config ∧
    (on_chunk o st chunk).1.m_stream = none ∧
    (on_chunk o st chunk).2 = chunk ∧
    on_chunk o2 (on_chunk o st chunk).1 chunk2 = ((on_chunk o st chunk).1, chunk2) := by
  have hinit : init_stream o st.m_config chunk.srate chunk.channels = none := by
    simp [init_stream, sonicCreateStream, hcreate]
  have h1 : on_chunk o st chunk = ({ st with m_stream := none }, chunk) := by
    unfold on_chunk
    rw [if_neg (by simp [hdef]), if_pos hfmt, hinit]
  rw [h1]
  refine ⟨rfl, rfl, rfl, rfl, rfl, ?_⟩
  unfold on_chunk
  rw [if_neg (by simp [hdef]), if_neg (by simp [hr2, hc2, hl2])]
  unfold run_stream
  rfl

/-- C10 witness: a failed rebind at 48000 Hz followed by a 44100 Hz chunk
in the previously bound format, under an always-succeeding second engine,
still passes through. -/
theorem on_chunk_failed_bind_passthrough_witness :
    (on_chunk oracleFail state2 chunk48).1.m_sample_rate = state2.m_sample_rate ∧
    (on_chunk oracleFail state2 chunk48).1.m_channels = state2.m_channels ∧
    (on_chunk oracleFail state2 chunk48).1.m_channel_config = state2.m_channel_config ∧
    (on_chunk oracleFail state2 chunk48).1.m_stream = none ∧
    (on_chunk oracleFail state2 chunk48).2 = chunk48 ∧
    on_chunk oracle0 (on_chunk oracleFail state2 chunk48).1 chunk0 =
      ((on_chunk oracleFail state2 chunk48).1, chunk0) :=
  on_chunk_failed_bind_passthrough oracleFail oracle0 state2 chunk48 chunk0
    (by decide) (by decide) rfl rfl rfl rfl

end FooSpeedy
